import Mathlib

/-!
Shallow embedding of `src/eth_kdj_trader.py` (single-symbol KDJ trading bot).

The external world (Alpaca REST client, pandas_ta, websocket transport) is
modelled by explicit outcome types: each network call or library call that the
Python code wraps in `try/except` becomes a constructor choice in an
environment record, and the embedded function computes exactly what the Python
control flow does with that outcome.  Floats become rationals; the claims under
study are about control flow and thresholds, not float rounding.
-/

/-- Trading symbol fixed at the top of `__main__` (line 200). -/
def symbol : String := "ETH/USDC"

/-! ## String containment helper

`close_position` checks `"position does not exist" in str(e).lower()`.
We model Python's `in` on strings by an executable character-list
containment check, and `str.lower()` by mapping `Char.toLower`. -/

/-- Boolean test that the first character list is an initial segment of the second. -/
def charListPrefixOf : List Char → List Char → Bool
  | [], _ => true
  | _ :: _, [] => false
  | a :: as, b :: bs => a == b && charListPrefixOf as bs

/-- Boolean test that `needle` occurs contiguously inside `hay` (Python `needle in hay`). -/
def charListContains (needle : List Char) : List Char → Bool
  | [] => charListPrefixOf needle []
  | h :: t => charListPrefixOf needle (h :: t) || charListContains needle t

/-- Python `needle in hay` for strings. -/
def strContains (hay needle : String) : Bool :=
  charListContains needle.data hay.data

/-- Python `s.lower()`. -/
def lowerStr (s : String) : String :=
  String.mk (s.data.map Char.toLower)

/-- Test used at line 132: `"position does not exist" in str(e).lower()`. -/
def msgHasPositionDoesNotExist (msg : String) : Bool :=
  strContains (lowerStr msg) "position does not exist"

/-! ## close_position (lines 124-140) -/

/-- Outcome of the `api.close_position(symbol)` call as the `try/except`
ladder of `close_position` distinguishes it: normal return, an
`tradeapi.rest.APIError` carrying a status code and message, or any other
exception. -/
inductive CloseOutcome where
  | success
  | apiError (status : Nat) (msg : String)
  | otherError
  deriving DecidableEq

/-- Embedding of `close_position` (lines 124-140): returns `True` on a normal
close; on an `APIError` returns `True` iff the status is 404 and the lowered
message contains "position does not exist", else `False`; any other exception
yields `False`. -/
def close_position (o : CloseOutcome) : Bool :=
  match o with
  | .success => true
  | .apiError status msg => status == 404 && msgHasPositionDoesNotExist msg
  | .otherError => false

/-! ## calculate_kdj (lines 63-92)

The pandas `DataFrame` is modelled by its column-name list and row count,
which is all `calculate_kdj`'s control flow inspects: it checks that the
three expected columns are present, renames them and projects onto exactly
those three, or returns `pd.DataFrame()` (the empty frame). -/

/-- Column-and-shape view of a pandas DataFrame. -/
structure Frame where
  cols : List String
  nrows : Nat
  deriving DecidableEq

/-- Python `pd.DataFrame()`. -/
def emptyFrame : Frame := ⟨[], 0⟩

/-- Outcome of `ta.kdj(high, low, close, length=9)` together with the column
normalisation that precedes it: either some exception is raised inside the
`try` block, or a result frame is produced. -/
inductive TaKdjOutcome where
  | raises
  | frame (f : Frame)
  deriving DecidableEq

/-- Expected K column name, `f"K_{9}_3"` (line 70). -/
def expected_k_col : String := "K_9_3"

/-- Expected D column name, `f"D_{9}_3"` (line 71). -/
def expected_d_col : String := "D_9_3"

/-- Expected J column name, `f"J_{9}_3"` (line 72). -/
def expected_j_col : String := "J_9_3"

/-- Embedding of `calculate_kdj` (lines 63-92): if the underlying computation
raises, return the empty frame; if all three expected columns are present,
rename them to `K_9`, `D_9`, `J_9` and project onto exactly those three
(row count preserved); otherwise return the empty frame. -/
def calculate_kdj (o : TaKdjOutcome) : Frame :=
  match o with
  | .raises => emptyFrame
  | .frame f =>
    if expected_k_col ∈ f.cols ∧ expected_d_col ∈ f.cols ∧ expected_j_col ∈ f.cols then
      ⟨["K_9", "D_9", "J_9"], f.nrows⟩
    else
      emptyFrame

/-! ## place_order (lines 94-122) -/

/-- Outcome of `api.get_latest_crypto_quotes([symbol])`: the call raises, it
returns but the symbol is missing or falsy (line 97), or a usable quote is
present. -/
inductive QuoteOutcome where
  | raises
  | noQuote
  | quote
  deriving DecidableEq

/-- Environment for one `place_order` call: the quote-fetch outcome and
whether `api.submit_order` raises. -/
structure OrderEnv where
  quoteOutcome : QuoteOutcome
  submitRaises : Bool
  deriving DecidableEq

/-- An order as passed to `api.submit_order` (lines 104-110). -/
structure Order where
  symbol : String
  notional : ℚ
  side : String
  order_type : String
  time_in_force : String
  deriving DecidableEq

/-- Observable result of `place_order`: the list of orders actually submitted
to the exchange client, and the Boolean the function returns. -/
structure PlaceOrderResult where
  submitted : List Order
  ret : Bool
  deriving DecidableEq

/-- Embedding of `place_order` (lines 94-122): fetch the latest quote; if the
fetch raises or yields no usable quote, return `False` with nothing submitted.
For side `'buy'`, submit one market GTC order sized by `notional =
buying_power` and return `True` (if `submit_order` raises, the exception is
caught and `False` is returned with nothing recorded as submitted).  For side
`'sell'` and any other side, log and return `False` without submitting. -/
def place_order (oe : OrderEnv) (sym : String) (buying_power : ℚ) (side : String) :
    PlaceOrderResult :=
  match oe.quoteOutcome with
  | .raises => ⟨[], false⟩
  | .noQuote => ⟨[], false⟩
  | .quote =>
    if side = "buy" then
      if oe.submitRaises then ⟨[], false⟩
      else ⟨[⟨sym, buying_power, "buy", "market", "gtc"⟩], true⟩
    else ⟨[], false⟩

/-! ## Position query (lines 250-266) -/

/-- An open position as the loop reads it from `api.list_positions()`. -/
structure Position where
  symbol : String
  qty : ℚ
  deriving DecidableEq

/-- Outcome of the position query block (lines 250-266): the target symbol is
found in the list, the list returns without it, an `APIError` with some
status is raised, or some other exception is raised. -/
inductive PositionQueryOutcome where
  | found (p : Position)
  | notFoundInList
  | apiError (status : Nat)
  | otherError
  deriving DecidableEq

/-- Value of `current_position` after the query block: the found position, or
`None` in every other case — the `except` handlers at lines 258-265 log (the
`APIError` handler logs only when the status is not 404) and set
`current_position = None`. -/
def trackedPosition : PositionQueryOutcome → Option Position
  | .found p => some p
  | .notFoundInList => none
  | .apiError _ => none
  | .otherError => none

/-! ## One cycle of the poll loop (lines 227-284) -/

/-- One K/D/J row of the computed indicator frame, as the decision step reads
it (`latest_kdj['K_9']` etc.). -/
structure KdjPoint where
  K_9 : ℚ
  D_9 : ℚ
  J_9 : ℚ
  deriving DecidableEq

/-- External-world outcomes for one iteration of the `while True` loop:
whether `api.get_account()` and the `float` conversion succeed and what
buying power they report (lines 229-230); whether `fetch_15min_data` returns
a non-`None`, non-empty frame (lines 233-237); the row view of the
`calculate_kdj` result (lines 241-248); the position query outcome (lines
250-266); and the `place_order` / `close_position` environments for the
decision branches. -/
structure CycleEnv where
  accountOk : Bool
  buying_power : ℚ
  barsOk : Bool
  kdj : List KdjPoint
  posQuery : PositionQueryOutcome
  quoteOutcome : QuoteOutcome
  submitRaises : Bool
  closeOutcome : CloseOutcome
  deriving DecidableEq

/-- Observable outcome of one cycle: buy orders submitted via `place_order`,
number of `close_position` invocations, whether the cycle reached the
position-query/decision step, and the sleep issued at the end (60 on the
abort paths, 15*60 = 900 after a decision). -/
structure CycleOutcome where
  buyOrders : List Order
  closeCalls : Nat
  reachedDecision : Bool
  sleepSecs : Nat
  deriving DecidableEq

/-- Embedding of one iteration of the poll loop body (lines 227-284).
An exception in `get_account` falls to the outer handler (line 282) which
sleeps 60s; `data is None or data.empty` sleeps 60s and continues; an empty
KDJ frame (`kdj.empty or len(kdj) < 1`, line 242) sleeps 60s and continues;
otherwise `latest_kdj = kdj.iloc[-1]`, the position is queried, and the
decision at lines 268-277 runs: `K_9 < 20 and current_position is None`
calls `place_order(..., 'buy')`; `K_9 > 80 and current_position is not None`
calls `close_position`; otherwise HOLD; then sleep 15*60. -/
def runCycle (env : CycleEnv) : CycleOutcome :=
  match env.accountOk with
  | false => ⟨[], 0, false, 60⟩
  | true =>
    match env.barsOk with
    | false => ⟨[], 0, false, 60⟩
    | true =>
      match env.kdj.getLast? with
      | none => ⟨[], 0, false, 60⟩
      | some latest =>
        if latest.K_9 < 20 ∧ trackedPosition env.posQuery = none then
          ⟨(place_order ⟨env.quoteOutcome, env.submitRaises⟩ symbol env.buying_power
              "buy").submitted, 0, true, 15 * 60⟩
        else if latest.K_9 > 80 ∧ trackedPosition env.posQuery ≠ none then
          ⟨[], 1, true, 15 * 60⟩
        else
          ⟨[], 0, true, 15 * 60⟩

/-! ## The poll loop and its fixed fetch window (lines 224-233)

`end_date = datetime.now().date()` and `start_date = end_date -
timedelta(days=30)` are computed once, before `while True`; the loop body
reads them for every `fetch_15min_data` call and assigns only cycle-local
variables, never the two date variables.  Dates are modelled as day
numbers. -/

/-- Loop-carried variables that the fetch window depends on. -/
structure LoopState where
  start_date : Int
  end_date : Int
  deriving DecidableEq

/-- State at loop entry for a given `today = datetime.now().date()`
(lines 224-225). -/
def initialLoopState (today : Int) : LoopState :=
  ⟨today - 30, today⟩

/-- A bar-fetch request as issued to `api.get_crypto_bars` (lines 43-48). -/
structure FetchRequest where
  symbol : String
  timeframe : String
  start_d : Int
  end_d : Int
  deriving DecidableEq

/-- The fetch request a cycle issues, if any: when `get_account` raises the
cycle never reaches `fetch_15min_data`; otherwise it requests the window held
in the loop state. -/
def cycleFetchRequest (s : LoopState) (env : CycleEnv) : Option FetchRequest :=
  match env.accountOk with
  | false => none
  | true => some ⟨symbol, "15Min", s.start_date, s.end_date⟩

/-- One loop iteration: the body never assigns `start_date` or `end_date`,
so the loop state is returned unchanged alongside the cycle's fetch request
and observable outcome. -/
def cycleStep (s : LoopState) (env : CycleEnv) : LoopState × Option FetchRequest × CycleOutcome :=
  (s, cycleFetchRequest s env, runCycle env)

/-- Run the poll loop over a finite list of per-cycle environments,
collecting each cycle's fetch request. -/
def loopRequests (s : LoopState) : List CycleEnv → List (Option FetchRequest)
  | [] => []
  | e :: t => (cycleStep s e).2.1 :: loopRequests (cycleStep s e).1 t

/-! ## WebSocket stream handlers (lines 142-196) -/

/-- Messages the handlers send over the socket: the auth payload
`{action auth, key, secret}` and the subscribe payload
`{action subscribe, quotes, trade_updates}`. -/
inductive SentMsg where
  | auth
  | subscribe
  deriving DecidableEq

/-- First element of a parsed stream message as `on_message` inspects it:
presence/value of the `'T'` type tag and of the `'msg'` field. -/
structure MsgObj where
  T : Option String
  msg : Option String
  deriving DecidableEq

/-- A raw incoming stream message, classified by what `json.loads` and the
subsequent subscripting do with it: not valid JSON (`json.loads` raises), an
empty JSON array (`data[0]` raises `IndexError` inside the `if` block at line
149), a JSON value whose first element is not a dict (the `in` test or
`.get` raises), or an array whose first element is a dict. -/
inductive StreamInput where
  | notJson
  | emptyArray
  | nonObjElem
  | objElem (o : MsgObj)
  deriving DecidableEq

/-- Result of running a handler: what it sent, and whether an exception
escaped to the websocket library (terminating dispatch). -/
structure HandlerResult where
  sent : List SentMsg
  raised : Bool
  deriving DecidableEq

/-- Body of `on_message` inside its `try` (lines 146-177): parse failures and
bad subscripting raise; a dict element without `'T'` sends auth+subscribe iff
its `msg` field equals `"connected"` (lines 148-153); elements with a `'T'`
tag are dispatched to logging-only branches (`trade_update`, `'q'` whose
inner `try` body is `pass`, `'s'`, or silently ignored). -/
def on_message_body : StreamInput → Except Unit (List SentMsg)
  | .notJson => .error ()
  | .emptyArray => .error ()
  | .nonObjElem => .error ()
  | .objElem o =>
    match o.T with
    | none => if o.msg = some "connected" then .ok [.auth, .subscribe] else .ok []
    | some _ => .ok []

/-- Embedding of `on_message` (lines 145-179): the whole body is wrapped in
`try/except Exception`, whose handler only logs, so no exception reaches the
caller. -/
def on_message (i : StreamInput) : HandlerResult :=
  match on_message_body i with
  | .ok s => ⟨s, false⟩
  | .error _ => ⟨[], false⟩

/-- Events delivered to the `WebSocketApp` callbacks. -/
inductive WsEvent where
  | opened
  | received (i : StreamInput)
  | closedEvt
  | erroredEvt
  deriving DecidableEq

/-- What each callback sends: `on_open` (lines 190-193) sends the auth
payload and immediately the subscribe payload; `on_message` sends whatever
its dispatch decides; `on_close` sleeps and reconnects without sending;
`on_error` only logs. -/
def handleEvent : WsEvent → List SentMsg
  | .opened => [.auth, .subscribe]
  | .received i => (on_message i).sent
  | .closedEvt => []
  | .erroredEvt => []

/-- Whether an event is the receipt of a connection-confirmation message
(first element has no `'T'` tag and `msg == 'connected'`). -/
def isConfirmation : WsEvent → Bool
  | .received (.objElem o) => o.T == none && o.msg == some "connected"
  | _ => false

/-- All messages sent over a run of the listener, in order. -/
def sentTrace : List WsEvent → List SentMsg
  | [] => []
  | e :: t => handleEvent e ++ sentTrace t

/-! ## Helper lemmas -/

/-- Rewriting `runCycle` to its decision step when the account read, the bar
fetch and the KDJ computation all succeed. -/
theorem runCycle_decision (env : CycleEnv) (latest : KdjPoint)
    (ha : env.accountOk = true) (hb : env.barsOk = true)
    (hk : env.kdj.getLast? = some latest) :
    runCycle env =
      if latest.K_9 < 20 ∧ trackedPosition env.posQuery = none then
        ⟨(place_order ⟨env.quoteOutcome, env.submitRaises⟩ symbol env.buying_power
            "buy").submitted, 0, true, 15 * 60⟩
      else if latest.K_9 > 80 ∧ trackedPosition env.posQuery ≠ none then
        ⟨[], 1, true, 15 * 60⟩
      else
        ⟨[], 0, true, 15 * 60⟩ := by
  unfold runCycle
  rw [ha, hb, hk]

/-- A cycle never invokes `close_position` when the tracked position is
`None`: every path that calls it passes the `current_position is not None`
guard. -/
theorem closeCalls_zero_of_tracked_none (env : CycleEnv)
    (h : trackedPosition env.posQuery = none) :
    (runCycle env).closeCalls = 0 := by
  cases ha : env.accountOk with
  | false => unfold runCycle; rw [ha]
  | true =>
    cases hb : env.barsOk with
    | false => unfold runCycle; rw [ha, hb]
    | true =>
      cases hk : env.kdj.getLast? with
      | none => unfold runCycle; rw [ha, hb, hk]
      | some latest =>
        rw [runCycle_decision env latest ha hb hk]
        by_cases h1 : latest.K_9 < 20 ∧ trackedPosition env.posQuery = none
        · rw [if_pos h1]
        · rw [if_neg h1, if_neg (by simp [h])]

/-- A cycle never submits a buy order when the tracked position is present:
the enter branch requires `current_position is None`. -/
theorem buyOrders_nil_of_tracked_some (env : CycleEnv) (p : Position)
    (h : trackedPosition env.posQuery = some p) :
    (runCycle env).buyOrders = [] := by
  cases ha : env.accountOk with
  | false => unfold runCycle; rw [ha]
  | true =>
    cases hb : env.barsOk with
    | false => unfold runCycle; rw [ha, hb]
    | true =>
      cases hk : env.kdj.getLast? with
      | none => unfold runCycle; rw [ha, hb, hk]
      | some latest =>
        rw [runCycle_decision env latest ha hb hk]
        rw [if_neg (by simp [h])]
        by_cases h2 : latest.K_9 > 80 ∧ trackedPosition env.posQuery ≠ none
        · rw [if_pos h2]
        · rw [if_neg h2]

/-! ## Claim theorems -/

/-- Environment for C1's counterexample: K = 15 < 20, no open position,
buying power 1000, but the latest-quote fetch yields no usable quote. -/
def c1CexEnv : CycleEnv :=
  ⟨true, 1000, true, [⟨15, 10, 25⟩], .notFoundInList, .noQuote, false, .success⟩

/-- C1 (counterexample): a cycle with K = 15 < 20, no open position and
buying power 1000 — exactly the claim's premises — in which the quote fetch
inside `place_order` fails: the cycle submits no buy order at all, not
exactly one with notional 1000. -/
theorem c1_counterexample :
    c1CexEnv.kdj.getLast? = some ⟨15, 10, 25⟩ ∧ (15 : ℚ) < 20 ∧
    trackedPosition c1CexEnv.posQuery = none ∧ c1CexEnv.buying_power = 1000 ∧
    (runCycle c1CexEnv).buyOrders = [] := by
  decide

/-- C1 (amended): when the latest K is below 20 and no position is tracked,
and additionally the latest-quote fetch succeeds and `submit_order` does not
raise, the cycle submits exactly one market GTC buy order whose notional is
the buying power read at the start of the cycle; if the quote is unavailable
or submission raises, no buy order is submitted; and when the enter guard
(K < 20 and position absent) fails, no buy order is submitted. -/
theorem c1_enter_buy_order (env : CycleEnv) (latest : KdjPoint)
    (ha : env.accountOk = true) (hb : env.barsOk = true)
    (hk : env.kdj.getLast? = some latest) :
    (latest.K_9 < 20 ∧ trackedPosition env.posQuery = none ∧
        env.quoteOutcome = QuoteOutcome.quote ∧ env.submitRaises = false →
      (runCycle env).buyOrders = [⟨symbol, env.buying_power, "buy", "market", "gtc"⟩]) ∧
    (env.quoteOutcome ≠ QuoteOutcome.quote ∨ env.submitRaises = true →
      (runCycle env).buyOrders = []) ∧
    (¬(latest.K_9 < 20 ∧ trackedPosition env.posQuery = none) →
      (runCycle env).buyOrders = []) := by
  rw [runCycle_decision env latest ha hb hk]
  refine ⟨?_, ?_, ?_⟩
  · rintro ⟨h1, h2, h3, h4⟩
    rw [if_pos ⟨h1, h2⟩]
    simp [place_order, h3, h4]
  · intro h
    by_cases hg : latest.K_9 < 20 ∧ trackedPosition env.posQuery = none
    · rw [if_pos hg]
      cases hq : env.quoteOutcome with
      | raises => simp [place_order, hq]
      | noQuote => simp [place_order, hq]
      | quote =>
        rcases h with h | h
        · exact absurd hq h
        · simp [place_order, hq, h]
    · rw [if_neg hg]
      by_cases h2 : latest.K_9 > 80 ∧ trackedPosition env.posQuery ≠ none
      · rw [if_pos h2]
      · rw [if_neg h2]
  · intro hg
    rw [if_neg hg]
    by_cases h2 : latest.K_9 > 80 ∧ trackedPosition env.posQuery ≠ none
    · rw [if_pos h2]
    · rw [if_neg h2]

/-- Environment realising C1's happy path: all premises hold and the quote
fetch and submission succeed. -/
def c1GoodEnv : CycleEnv :=
  ⟨true, 1000, true, [⟨15, 10, 25⟩], .notFoundInList, .quote, false, .success⟩

/-- C1 (witness): on the happy-path environment the amended theorem yields
the single 1000-notional buy order. -/
theorem c1_enter_buy_order_witness :
    (runCycle c1GoodEnv).buyOrders = [⟨symbol, 1000, "buy", "market", "gtc"⟩] :=
  (c1_enter_buy_order c1GoodEnv ⟨15, 10, 25⟩ rfl rfl rfl).1 ⟨by decide, rfl, rfl, rfl⟩

/-- Environment for C2's counterexample: the position query raises a non-404
`APIError`, yet K = 15 < 20 and the quote fetch succeeds. -/
def c2CexEnv : CycleEnv :=
  ⟨true, 1000, true, [⟨15, 10, 25⟩], .apiError 500, .quote, false, .success⟩

/-- C2 (counterexample): a cycle whose position query fails with a non-404
error and whose latest K is 15 submits a buy order — the cycle does not
defer to HOLD. -/
theorem c2_counterexample :
    c2CexEnv.posQuery = PositionQueryOutcome.apiError 500 ∧ (500 : Nat) ≠ 404 ∧
    (runCycle c2CexEnv).buyOrders = [⟨symbol, 1000, "buy", "market", "gtc"⟩] := by
  decide

/-- C2 (amended): a cycle whose position query fails (an `APIError` of any
status, or any other exception) behaves exactly as if the position were
queried and found absent — in particular it never issues a close instruction,
but it does issue a buy order whenever the absent-position cycle would. -/
theorem c2_query_error_as_absent (env : CycleEnv) (s : Nat) :
    runCycle { env with posQuery := .apiError s } =
      runCycle { env with posQuery := .notFoundInList } ∧
    runCycle { env with posQuery := .otherError } =
      runCycle { env with posQuery := .notFoundInList } ∧
    (runCycle { env with posQuery := .apiError s }).closeCalls = 0 ∧
    (runCycle { env with posQuery := .otherError }).closeCalls = 0 := by
  refine ⟨?_, ?_, closeCalls_zero_of_tracked_none _ rfl,
    closeCalls_zero_of_tracked_none _ rfl⟩ <;>
  · unfold runCycle
    cases env.accountOk with
    | false => rfl
    | true =>
      cases env.barsOk with
      | false => rfl
      | true =>
        cases hk : env.kdj.getLast? with
        | none => rfl
        | some latest => simp [trackedPosition]

/-- C3: the decision logic never calls `close_position` when the tracked
position is `None`, and never submits a buy order when a tracked position is
present. -/
theorem c3_decision_guards (env : CycleEnv) :
    (trackedPosition env.posQuery = none → (runCycle env).closeCalls = 0) ∧
    (∀ p, trackedPosition env.posQuery = some p → (runCycle env).buyOrders = []) :=
  ⟨fun h => closeCalls_zero_of_tracked_none env h,
   fun p h => buyOrders_nil_of_tracked_some env p h⟩

/-- Environment with K = 85 > 80 but no tracked position. -/
def c3AbsentEnv : CycleEnv :=
  ⟨true, 1000, true, [⟨85, 50, 50⟩], .notFoundInList, .quote, false, .success⟩

/-- Environment with K = 15 < 20 but a tracked position present. -/
def c3PresentEnv : CycleEnv :=
  ⟨true, 1000, true, [⟨15, 10, 25⟩], .found ⟨"ETH/USDC", 2⟩, .quote, false, .success⟩

/-- C3 (witness): with K = 85 and no position, no close is issued; with
K = 15 and a position, no buy is issued. -/
theorem c3_decision_guards_witness :
    (runCycle c3AbsentEnv).closeCalls = 0 ∧ (runCycle c3PresentEnv).buyOrders = [] :=
  ⟨(c3_decision_guards c3AbsentEnv).1 rfl,
   (c3_decision_guards c3PresentEnv).2 ⟨"ETH/USDC", 2⟩ rfl⟩

/-- C4: closing when the API reports a 404 "position does not exist" error
returns the same outcome as a successful close (`True`); any other close
failure — an `APIError` without that status/message, or any other
exception — returns `False`. -/
theorem c4_close_idempotent (status : Nat) (msg : String) :
    (status = 404 ∧ msgHasPositionDoesNotExist msg = true →
      close_position (.apiError status msg) = close_position .success) ∧
    (¬(status = 404 ∧ msgHasPositionDoesNotExist msg = true) →
      close_position (.apiError status msg) = false) ∧
    close_position .otherError = false := by
  refine ⟨?_, ?_, rfl⟩
  · rintro ⟨h1, h2⟩
    simp [close_position, h1, h2]
  · intro h
    cases hb : (status == 404 && msgHasPositionDoesNotExist msg) with
    | false => simpa [close_position] using hb
    | true =>
      rw [Bool.and_eq_true, beq_iff_eq] at hb
      exact absurd hb h

/-- C4 (witness): a 404 "position does not exist" close equals a successful
close, and a 500 close fails. -/
theorem c4_close_idempotent_witness :
    close_position (.apiError 404 "position does not exist") = close_position .success ∧
    close_position (.apiError 500 "internal server error") = false :=
  ⟨(c4_close_idempotent 404 "position does not exist").1 ⟨rfl, by decide⟩,
   (c4_close_idempotent 500 "internal server error").2.1 (by decide)⟩

/-- Environment whose KDJ frame has exactly one row. -/
def c5CexEnv : CycleEnv :=
  ⟨true, 1000, true, [⟨50, 50, 50⟩], .notFoundInList, .quote, false, .success⟩

/-- C5 (counterexample): a cycle whose KDJ result has exactly one point —
fewer than the two the claim requires — still proceeds to the position query
and decision step and sleeps the full 15 minutes, because the guard at line
242 only demands `len(kdj) >= 1`. -/
theorem c5_counterexample :
    c5CexEnv.kdj.length = 1 ∧ (runCycle c5CexEnv).reachedDecision = true ∧
    (runCycle c5CexEnv).sleepSecs = 15 * 60 := by
  decide

/-- C5 (amended): with the account read and bar fetch succeeding, a cycle
proceeds to the position query and decision step iff the KDJ result has at
least one point; with an empty KDJ result the cycle aborts, sleeps the short
60-second backoff and retries. -/
theorem c5_kdj_gate (env : CycleEnv)
    (ha : env.accountOk = true) (hb : env.barsOk = true) :
    (env.kdj = [] → runCycle env = ⟨[], 0, false, 60⟩) ∧
    (env.kdj ≠ [] →
      (runCycle env).reachedDecision = true ∧ (runCycle env).sleepSecs = 15 * 60) := by
  constructor
  · intro h
    unfold runCycle
    rw [ha, hb, h]
    rfl
  · intro h
    rcases hk : env.kdj.getLast? with _ | latest
    · exact absurd (List.getLast?_eq_none_iff.mp hk) h
    · rw [runCycle_decision env latest ha hb hk]
      by_cases h1 : latest.K_9 < 20 ∧ trackedPosition env.posQuery = none
      · rw [if_pos h1]; exact ⟨rfl, rfl⟩
      · rw [if_neg h1]
        by_cases h2 : latest.K_9 > 80 ∧ trackedPosition env.posQuery ≠ none
        · rw [if_pos h2]; exact ⟨rfl, rfl⟩
        · rw [if_neg h2]; exact ⟨rfl, rfl⟩

/-- Environment whose KDJ computation produced no rows. -/
def c5EmptyEnv : CycleEnv :=
  ⟨true, 1000, true, [], .notFoundInList, .quote, false, .success⟩

/-- C5 (witness): with an empty KDJ result the cycle aborts with the
60-second backoff. -/
theorem c5_kdj_gate_witness :
    runCycle c5EmptyEnv = ⟨[], 0, false, 60⟩ :=
  (c5_kdj_gate c5EmptyEnv rfl rfl).1 rfl

/-- C6: `calculate_kdj` is all-or-nothing — any result other than the empty
frame has exactly the three renamed columns `K_9`, `D_9`, `J_9`; an
exception in the underlying computation yields the empty frame; and a result
frame missing any of the three expected columns yields the empty frame. -/
theorem c6_kdj_all_or_nothing (o : TaKdjOutcome) :
    (calculate_kdj o ≠ emptyFrame → (calculate_kdj o).cols = ["K_9", "D_9", "J_9"]) ∧
    (o = TaKdjOutcome.raises → calculate_kdj o = emptyFrame) ∧
    (∀ f, o = TaKdjOutcome.frame f →
      ¬(expected_k_col ∈ f.cols ∧ expected_d_col ∈ f.cols ∧ expected_j_col ∈ f.cols) →
      calculate_kdj o = emptyFrame) := by
  cases o with
  | raises =>
    refine ⟨fun h => absurd rfl h, fun _ => rfl, ?_⟩
    rintro f hf
    cases hf
  | frame f =>
    refine ⟨?_, ?_, ?_⟩
    · intro h
      simp only [calculate_kdj] at h ⊢
      by_cases hc : expected_k_col ∈ f.cols ∧ expected_d_col ∈ f.cols ∧
          expected_j_col ∈ f.cols
      · rw [if_pos hc]
      · rw [if_neg hc] at h
        exact absurd rfl h
    · intro h
      cases h
    · rintro g hg hc
      cases hg
      simp only [calculate_kdj]
      rw [if_neg hc]

/-- C6 (witness): a frame carrying the three expected columns is renamed to
exactly `K_9`, `D_9`, `J_9`. -/
theorem c6_kdj_all_or_nothing_witness :
    (calculate_kdj (.frame ⟨["K_9_3", "D_9_3", "J_9_3"], 5⟩)).cols = ["K_9", "D_9", "J_9"] :=
  (c6_kdj_all_or_nothing (.frame ⟨["K_9_3", "D_9_3", "J_9_3"], 5⟩)).1 (by decide)

/-- C7 (counterexample): a run consisting of the single transport-open event
already sends the subscribe request, although no connection-confirmation
message was ever received — `on_open` sends credentials and subscribe
back-to-back without waiting. -/
theorem c7_counterexample :
    sentTrace [WsEvent.opened] = [SentMsg.auth, SentMsg.subscribe] ∧
    List.all [WsEvent.opened] (fun e => !isConfirmation e) = true := by
  decide

/-- C7 (amended): the subscribe request is sent exactly on the transport-open
event (immediately after the credentials, without waiting for any
confirmation) and on receipt of a connection-confirmation message (which
re-sends both credentials and the subscription). -/
theorem c7_subscribe_events (e : WsEvent) :
    SentMsg.subscribe ∈ handleEvent e ↔ e = WsEvent.opened ∨ isConfirmation e = true := by
  cases e with
  | opened => simp [handleEvent, isConfirmation]
  | closedEvt => simp [handleEvent, isConfirmation]
  | erroredEvt => simp [handleEvent, isConfirmation]
  | received i =>
    cases i with
    | notJson => simp [handleEvent, isConfirmation, on_message, on_message_body]
    | emptyArray => simp [handleEvent, isConfirmation, on_message, on_message_body]
    | nonObjElem => simp [handleEvent, isConfirmation, on_message, on_message_body]
    | objElem o =>
      rcases o with ⟨T, m⟩
      cases T with
      | some t => simp [handleEvent, isConfirmation, on_message, on_message_body]
      | none =>
        by_cases hm : m = some "connected" <;>
          simp [handleEvent, isConfirmation, on_message, on_message_body, hm]

/-- C8: `on_message` never lets an exception escape to its caller — the
catch-all handler converts every failure of the body (non-JSON input, empty
array, non-dict first element) into a log line — and such failing inputs do
exist, so the catch is not vacuous. -/
theorem c8_on_message_total :
    (∀ i : StreamInput, (on_message i).raised = false) ∧
    on_message_body StreamInput.notJson = Except.error () ∧
    on_message_body StreamInput.emptyArray = Except.error () := by
  refine ⟨fun i => ?_, rfl, rfl⟩
  cases i with
  | notJson => rfl
  | emptyArray => rfl
  | nonObjElem => rfl
  | objElem o =>
    rcases o with ⟨T, m⟩
    cases T with
    | some t => rfl
    | none =>
      by_cases hm : m = some "connected" <;>
        simp [on_message, on_message_body, hm]

/-- C9: `place_order` with any side other than `'buy'` submits nothing and
returns `False`; and whenever the latest-quote fetch raises or yields no
usable quote, it submits nothing and returns `False` regardless of side. -/
theorem c9_place_order_guards (oe : OrderEnv) (sym : String) (bp : ℚ) (side : String) :
    (side ≠ "buy" → place_order oe sym bp side = ⟨[], false⟩) ∧
    (oe.quoteOutcome ≠ QuoteOutcome.quote → place_order oe sym bp side = ⟨[], false⟩) := by
  rcases oe with ⟨q, st⟩
  cases q with
  | raises => exact ⟨fun _ => rfl, fun _ => rfl⟩
  | noQuote => exact ⟨fun _ => rfl, fun _ => rfl⟩
  | quote =>
    refine ⟨fun h => ?_, fun h => absurd rfl h⟩
    simp [place_order, h]

/-- C9 (witness): a sell with a live quote submits nothing and returns
`False`; a buy without a quote submits nothing and returns `False`. -/
theorem c9_place_order_guards_witness :
    place_order ⟨QuoteOutcome.quote, false⟩ symbol 1000 "sell" = ⟨[], false⟩ ∧
    place_order ⟨QuoteOutcome.noQuote, false⟩ symbol 1000 "buy" = ⟨[], false⟩ :=
  ⟨(c9_place_order_guards ⟨QuoteOutcome.quote, false⟩ symbol 1000 "sell").1 (by decide),
   (c9_place_order_guards ⟨QuoteOutcome.noQuote, false⟩ symbol 1000 "buy").2 (by decide)⟩

/-- Every fetch request issued by the loop carries the window stored in the
loop state, and the loop state is never changed by a cycle. -/
theorem loopRequests_window (s : LoopState) (envs : List CycleEnv) (r : FetchRequest)
    (h : some r ∈ loopRequests s envs) :
    r.start_d = s.start_date ∧ r.end_d = s.end_date := by
  induction envs with
  | nil => simp [loopRequests] at h
  | cons e t ih =>
    rw [loopRequests, List.mem_cons] at h
    rcases h with h | h
    · simp only [cycleStep, cycleFetchRequest] at h
      cases he : e.accountOk with
      | false =>
        rw [he] at h
        simp at h
      | true =>
        rw [he] at h
        simp only [Option.some.injEq] at h
        subst h
        exact ⟨rfl, rfl⟩
    · exact ih h

/-- C10: the fetch window is fixed at loop entry (`end_date = today`,
`start_date = today - 30` days) and every bar-fetch request issued by any
later cycle still carries exactly that window. -/
theorem c10_fetch_window_fixed (today : Int) (envs : List CycleEnv) (r : FetchRequest)
    (h : some r ∈ loopRequests (initialLoopState today) envs) :
    r.start_d = today - 30 ∧ r.end_d = today :=
  loopRequests_window (initialLoopState today) envs r h

/-- Environment for the C10 witness cycle. -/
def c10Env : CycleEnv :=
  ⟨true, 1000, true, [], .notFoundInList, .quote, false, .success⟩

/-- C10 (witness): running one cycle from day 100 issues a request for the
window from day 70 to day 100. -/
theorem c10_fetch_window_fixed_witness :
    ((⟨symbol, "15Min", 70, 100⟩ : FetchRequest).start_d = 100 - 30) ∧
    ((⟨symbol, "15Min", 70, 100⟩ : FetchRequest).end_d = 100) :=
  c10_fetch_window_fixed 100 [c10Env] ⟨symbol, "15Min", 70, 100⟩ (by decide)
